import Mathlib

/-!
Verification of the lyrics-resolution engine of `lrcsync` (src/src/main.rs).

The engine's data and operations are shallowly embedded below, translated
from the Rust source.  Finite `f32` values are modelled as exact rationals
(`ℚ`); `f32` NaN is modelled explicitly, since the candidate-sorting code
compares float deltas with `partial_cmp(..).unwrap()`.  The rounding of the
`f32` subtraction is not modelled: every comparison the engine performs is
interpreted over the exact values.
-/

namespace LrcSync

/-- Model of `f32` as used by the engine: either NaN or an exact finite
value.  Infinities play no role in any claim and are not distinguished. -/
inductive F32 where
  | nan : F32
  | fin : ℚ → F32
deriving DecidableEq

/-- `f32` subtraction (`a - b` in the Rust source): NaN propagates. -/
def F32.sub : F32 → F32 → F32
  | .fin a, .fin b => .fin (a - b)
  | _, _ => .nan

/-- `f32::abs`: NaN stays NaN. -/
def F32.abs : F32 → F32
  | .fin a => .fin |a|
  | .nan => .nan

/-- `f32` strict `<`: any comparison involving NaN is false. -/
def F32.blt : F32 → F32 → Bool
  | .fin a, .fin b => decide (a < b)
  | _, _ => false

/-- Is this value NaN?  (`partial_cmp` on `f32` returns `None` exactly when
an operand is NaN.) -/
def F32.isNaN : F32 → Bool
  | .nan => true
  | .fin _ => false

/-- Decimal rendering of an `f32` (`duration.to_string()` in the source).
Only the presence of query parameters matters to the claims below, never
this value string, so finite values are rendered as rationals. -/
def F32.toRustStr : F32 → String
  | .fin q => toString q
  | .nan => "NaN"

/-- `LrclibItem` (main.rs:96-106): one candidate record returned by the
lyrics service. -/
structure LrclibItem where
  id : Nat
  trackName : String
  artistName : String
  albumName : String
  duration : F32
  instrumental : Bool
  plainLyrics : Option String
  syncedLyrics : Option String
deriving DecidableEq

/-- `LrclibQuery` (main.rs:41-46). -/
structure LrclibQuery where
  track_name : String
  artist_name : String
  album_name : Option String
  duration : Option F32
deriving DecidableEq

/-- `LrclibQuery::to_search_query` (main.rs:75-85): `track_name` always,
`artist_name` only when non-empty, `album_name` when present. -/
def LrclibQuery.to_search_query (q : LrclibQuery) : List (String × String) :=
  let query : List (String × String) := []
  let query := query ++ [("track_name", q.track_name)]
  let query :=
    if q.artist_name.length > 0 then query ++ [("artist_name", q.artist_name)] else query
  let query :=
    match q.album_name with
    | some album_name => query ++ [("album_name", album_name)]
    | none => query
  query

/-- `LrclibQuery::to_get_query` (main.rs:67-73): the search parameters plus,
when present, `duration`. -/
def LrclibQuery.to_get_query (q : LrclibQuery) : List (String × String) :=
  let query := q.to_search_query
  let query :=
    match q.duration with
    | some duration => query ++ [("duration", duration.toRustStr)]
    | none => query
  query

/-- `LrclibQuery::to_get_query_string` (main.rs:50-65): the commented "old
method", called from nowhere.  Unlike `to_get_query` it always writes
`artist_name`, even when empty. -/
def LrclibQuery.to_get_query_string (q : LrclibQuery) : String :=
  let query := ""
  let query := query ++ "track_name=" ++ q.track_name
  let query := query ++ "&artist_name=" ++ q.artist_name
  let query :=
    match q.album_name with
    | some album_name => query ++ "&album_name=" ++ album_name
    | none => query
  let query :=
    match q.duration with
    | some duration => query ++ "&duration=" ++ duration.toRustStr
    | none => query
  query

/-- `LrclibQuery::remove_duration` (main.rs:87-89). -/
def LrclibQuery.remove_duration (q : LrclibQuery) : LrclibQuery :=
  { q with duration := none }

/-- `LrclibQuery::remove_album_name` (main.rs:91-93). -/
def LrclibQuery.remove_album_name (q : LrclibQuery) : LrclibQuery :=
  { q with album_name := none }

/-- The track metadata the orchestrator extracts before building the query
(main.rs:213-228): title and joined artist string default to `""`, album and
duration stay optional. -/
structure TrackMetadata where
  track_name : String
  artist_name : String
  album_name : Option String
  duration : Option F32
deriving DecidableEq

/-- Query construction of the orchestrator (main.rs:229-240): all four
fields are copied from the metadata, then `remove_duration` runs when the
ignore list contains `"duration"` and `remove_album_name` runs when it
contains `"album_name"` or `"album"`. -/
def buildQuery (md : TrackMetadata) (ignore : List String) : LrclibQuery :=
  let q : LrclibQuery :=
    { track_name := md.track_name
      artist_name := md.artist_name
      album_name := md.album_name
      duration := md.duration }
  let q := if ignore.contains "duration" then q.remove_duration else q
  if ignore.contains "album_name" || ignore.contains "album" then q.remove_album_name else q

/-- The state of `LrcLibClient` (main.rs:36-39) that the claims concern:
its base url.  The reqwest connection pool is I/O and is not modelled. -/
structure LrcLibClient where
  url : String
deriving DecidableEq

/-- `LrcLibClient::new` (main.rs:109-116): the `url` argument is unused and
the field is initialised to the literal `"https://lrclib.net"`. -/
def LrcLibClient.new (url : String) : LrcLibClient :=
  { url := "https://lrclib.net" }

/-- `LrcLibClient::set_url` (main.rs:118-120). -/
def LrcLibClient.set_url (c : LrcLibClient) (url : String) : LrcLibClient :=
  { c with url := url }

/-- `reqwest::StatusCode::is_success`: 2xx. -/
def isSuccess (status : Nat) : Bool :=
  decide (200 ≤ status) && decide (status < 300)

/-- The error outcomes of `LrcLibClient::get`/`search`: the
`anyhow::bail!` on a body that fails to parse, and the `anyhow::anyhow!`
carrying a non-success, non-404 status. -/
inductive LrcErr where
  | parseFailure : LrcErr
  | status : Nat → LrcErr
deriving DecidableEq

/-- Status handling of `LrcLibClient::get` (main.rs:122-141) once the
response's status code and the result of deserialising its body are in hand
(`parsed = none` models a body `serde_json` rejects): success with a parsed
item is `Ok(Some item)`, success with a parse failure bails, 404 is
`Ok(None)`, any other status is an error carrying the status. -/
def handleGetResponse (status : Nat) (parsed : Option LrclibItem) :
    Except LrcErr (Option LrclibItem) :=
  if isSuccess status then
    match parsed with
    | some item => .ok (some item)
    | none => .error .parseFailure
  else
    if status = 404 then .ok none
    else .error (.status status)

/-- Status handling of `LrcLibClient::search` (main.rs:143-162), identical
to `handleGetResponse` but for a list body. -/
def handleSearchResponse (status : Nat) (parsed : Option (List LrclibItem)) :
    Except LrcErr (Option (List LrclibItem)) :=
  if isSuccess status then
    match parsed with
    | some items => .ok (some items)
    | none => .error .parseFailure
  else
    if status = 404 then .ok none
    else .error (.status status)

/-- The sort key of the candidate sort (main.rs:271-277): the absolute
delta `|candidate.duration - target|` as a rational.  Only evaluated on the
no-NaN path (see `sortComparatorPanics`); the `nan` branch is unreachable
wherever this key is used. -/
def qAbsDelta (d : F32) (c : LrclibItem) : ℚ :=
  match (c.duration.sub d).abs with
  | .fin q => q
  | .nan => 0

/-- Stable insertion into a list sorted ascending by `qAbsDelta`. -/
def insertByDelta (d : F32) (c : LrclibItem) : List LrclibItem → List LrclibItem
  | [] => [c]
  | x :: xs =>
    if qAbsDelta d c ≤ qAbsDelta d x then c :: x :: xs else x :: insertByDelta d c xs

/-- `canidates.sort_by(..)` (main.rs:271-277) on the path where the
comparator cannot panic: a stable sort ascending by absolute delta,
realised as stable insertion sort (extensionally equal to Rust's stable
`sort_by` for the total comparator arising when no delta is NaN; for a
singleton list the comparator is never invoked and any sort is the
identity). -/
def sortByDelta (d : F32) : List LrclibItem → List LrclibItem
  | [] => []
  | x :: xs => insertByDelta d x (sortByDelta d xs)

/-- Whether `sort_by`'s comparator
`a_delta.abs().partial_cmp(&b_delta.abs()).unwrap()` (main.rs:276) panics:
`partial_cmp` is `None` exactly when an operand is NaN, and a comparison
sort of two or more elements invokes the comparator on every element at
least once, so the sort panics exactly when the list has at least two
elements and some candidate's absolute delta is NaN. -/
def sortComparatorPanics (d : F32) (items : List LrclibItem) : Bool :=
  decide (2 ≤ items.length) && items.any fun c => ((c.duration.sub d).abs).isNaN

/-- The tolerance filter (main.rs:279-285): when `tolerance > 0.0`, keep
exactly the candidates with `delta.abs() < tolerance` (strict `<`);
otherwise leave the list untouched. -/
def toleranceFilter (tol d : F32) (items : List LrclibItem) : List LrclibItem :=
  if F32.blt (.fin 0) tol then
    items.filter fun item => F32.blt ((item.duration.sub d).abs) tol
  else items

/-- Outcome of the candidate-selection block (main.rs:265-291):
`noResults` is the `lrc_items.len() == 0` branch ("Did not find lrc ... (no
results)"), `panicSort` the `unwrap` inside the sort comparator,
`panicIndex` the out-of-bounds `canidates[0]` after the filter emptied the
vector, `selected c` the candidate `canidates[0]` the code goes on to use. -/
inductive SelOutcome where
  | noResults : SelOutcome
  | panicSort : SelOutcome
  | panicIndex : SelOutcome
  | selected : LrclibItem → SelOutcome
deriving DecidableEq

/-- The candidate-selection block of `main` (main.rs:265-291): an empty
list reports no results; with a target duration the list is sorted by
absolute delta (panicking on a NaN comparison) and, when `tolerance > 0.0`,
filtered by strict tolerance; finally `canidates[0]` is taken, an
out-of-bounds panic when the filter removed everything.  Without a target
duration the list is neither sorted nor filtered. -/
def selectCandidate (items : List LrclibItem) (duration : Option F32) (tol : F32) :
    SelOutcome :=
  if items.length = 0 then .noResults
  else
    match duration with
    | none =>
      match items with
      | [] => .noResults
      | c :: _ => .selected c
    | some d =>
      if sortComparatorPanics d items then .panicSort
      else
        match toleranceFilter tol d (sortByDelta d items) with
        | [] => .panicIndex
        | c :: _ => .selected c

/-- Terminal outcome of the whole search-fallback branch (main.rs:262-305)
for a successfully returned candidate list: after selection the code calls
`write_lrc_for_file` with `canidates[0].syncedLyrics.as_ref().unwrap()`
(main.rs:291), a panic when the selected candidate has no synced lyrics. -/
inductive SearchOutcome where
  | noResults : SearchOutcome
  | panicSort : SearchOutcome
  | panicIndex : SearchOutcome
  | panicUnwrapSynced : SearchOutcome
  | wrote : String → SearchOutcome
deriving DecidableEq

/-- The search-fallback branch on `Ok(Some(lrc_items))` (main.rs:263-297):
run selection, then unwrap the selected candidate's `syncedLyrics` and hand
the text to the file writer. -/
def searchBranch (items : List LrclibItem) (duration : Option F32) (tol : F32) :
    SearchOutcome :=
  match selectCandidate items duration tol with
  | .noResults => .noResults
  | .panicSort => .panicSort
  | .panicIndex => .panicIndex
  | .selected c =>
    match c.syncedLyrics with
    | none => .panicUnwrapSynced
    | some s => .wrote s

/-- Concrete candidate with duration 190s (spec Scenario D). -/
def item190 : LrclibItem :=
  { id := 1, trackName := "Song", artistName := "Band", albumName := "Rec"
    duration := .fin 190, instrumental := false
    plainLyrics := none, syncedLyrics := some "[00:01.00]hi" }

/-- Concrete candidate with duration 200s. -/
def item200 : LrclibItem :=
  { item190 with id := 2, duration := .fin 200 }

/-- Concrete candidate with duration 250s (spec Scenario D). -/
def item250 : LrclibItem :=
  { item190 with id := 3, duration := .fin 250 }

/-- Concrete candidate with duration 195s (absolute delta against a 200s
target exactly equal to the default 5s tolerance). -/
def item195 : LrclibItem :=
  { item190 with id := 4, duration := .fin 195 }

/-- Concrete candidate with duration 200s and no synchronized lyrics
(spec Scenario E). -/
def item200NoSync : LrclibItem :=
  { item190 with id := 5, duration := .fin 200, syncedLyrics := none }

/-! ## Helper lemmas -/

theorem F32.blt_irrefl (a : F32) : F32.blt a a = false := by
  cases a <;> simp [F32.blt]

theorem isNaN_eq_nan {a : F32} (h : a.isNaN = true) : a = F32.nan := by
  cases a
  · rfl
  · simp [F32.isNaN] at h

theorem blt_nan_left (b : F32) : F32.blt F32.nan b = false := by
  cases b <;> rfl

theorem abs_sub_fin {c : LrclibItem} {d : F32}
    (h : ((c.duration.sub d).abs).isNaN = false) :
    (c.duration.sub d).abs = F32.fin (qAbsDelta d c) := by
  cases hx : (c.duration.sub d).abs with
  | nan => rw [hx] at h; simp [F32.isNaN] at h
  | fin q => simp [qAbsDelta, hx]

theorem mem_insertByDelta {d : F32} {c a : LrclibItem} :
    ∀ {l : List LrclibItem}, a ∈ insertByDelta d c l ↔ a = c ∨ a ∈ l := by
  intro l
  induction l with
  | nil => simp [insertByDelta]
  | cons x xs ih =>
    simp only [insertByDelta]
    split
    · simp [List.mem_cons]
    · simp only [List.mem_cons, ih]
      tauto

theorem mem_sortByDelta {d : F32} {a : LrclibItem} :
    ∀ {l : List LrclibItem}, a ∈ sortByDelta d l ↔ a ∈ l := by
  intro l
  induction l with
  | nil => simp [sortByDelta]
  | cons x xs ih => simp [sortByDelta, mem_insertByDelta, ih]

theorem pairwise_insertByDelta {d : F32} {c : LrclibItem} {l : List LrclibItem}
    (h : l.Pairwise fun x y => qAbsDelta d x ≤ qAbsDelta d y) :
    (insertByDelta d c l).Pairwise fun x y => qAbsDelta d x ≤ qAbsDelta d y := by
  induction l with
  | nil => simp [insertByDelta]
  | cons x xs ih =>
    rw [List.pairwise_cons] at h
    obtain ⟨hx, hxs⟩ := h
    by_cases hc : qAbsDelta d c ≤ qAbsDelta d x
    · rw [insertByDelta, if_pos hc]
      refine List.Pairwise.cons ?_ (List.Pairwise.cons hx hxs)
      intro b hb
      rcases List.mem_cons.mp hb with rfl | hb2
      · exact hc
      · exact le_trans hc (hx b hb2)
    · rw [insertByDelta, if_neg hc]
      refine List.Pairwise.cons ?_ (ih hxs)
      intro b hb
      rcases mem_insertByDelta.mp hb with rfl | hb2
      · exact le_of_not_le hc
      · exact hx b hb2

theorem pairwise_sortByDelta (d : F32) (l : List LrclibItem) :
    (sortByDelta d l).Pairwise fun x y => qAbsDelta d x ≤ qAbsDelta d y := by
  induction l with
  | nil => simp [sortByDelta]
  | cons x xs ih =>
    rw [sortByDelta]
    exact pairwise_insertByDelta ih

/-- The parameter list `to_search_query` builds, written as one append. -/
theorem to_search_query_eq (q : LrclibQuery) :
    q.to_search_query =
      [("track_name", q.track_name)] ++
        (if q.artist_name.length > 0 then [("artist_name", q.artist_name)] else []) ++
        (match q.album_name with
          | some album_name => [("album_name", album_name)]
          | none => []) := by
  simp only [LrclibQuery.to_search_query]
  cases q.album_name <;> split_ifs <;> simp


/-! ## Claim theorems -/

/-- Claim C5: for every candidate list and present target duration, the
candidate the selection block goes on to use (if any) is minimal in
absolute duration delta: when `tolerance > 0.0` it passes the strict
tolerance test and no candidate passing that test has a strictly smaller
absolute delta; when the tolerance is not positive no candidate at all has
a strictly smaller absolute delta. -/
theorem select_minimal (items : List LrclibItem) (d tol : F32) (c : LrclibItem)
    (h : selectCandidate items (some d) tol = SelOutcome.selected c) :
    (F32.blt (F32.fin 0) tol = true →
      F32.blt ((c.duration.sub d).abs) tol = true ∧
      ∀ c2 ∈ items, F32.blt ((c2.duration.sub d).abs) tol = true →
        F32.blt ((c2.duration.sub d).abs) ((c.duration.sub d).abs) = false) ∧
    (F32.blt (F32.fin 0) tol = false →
      ∀ c2 ∈ items, F32.blt ((c2.duration.sub d).abs) ((c.duration.sub d).abs) = false) := by
  simp only [selectCandidate] at h
  split at h
  · exact absurd h (by simp)
  next hlen =>
  split at h
  · exact absurd h (by simp)
  next hpanic =>
  split at h
  · exact absurd h (by simp)
  next c0 rest hfilter =>
  have hc0 : c0 = c := by injection h
  subst hc0
  by_cases hN : ∀ x ∈ items, ((x.duration.sub d).abs).isNaN = false
  · -- no NaN delta anywhere: the sort behaves, keys are rationals
    have habs : ∀ x ∈ items, (x.duration.sub d).abs = F32.fin (qAbsDelta d x) :=
      fun x hx => abs_sub_fin (hN x hx)
    have hpair := pairwise_sortByDelta d items
    by_cases hT : F32.blt (F32.fin 0) tol = true
    · rw [toleranceFilter, if_pos hT] at hfilter
      have hcfil : c0 ∈ (sortByDelta d items).filter
          (fun item => F32.blt ((item.duration.sub d).abs) tol) := by
        rw [hfilter]; exact List.mem_cons_self c0 rest
      obtain ⟨hcsort, hpc⟩ := List.mem_filter.mp hcfil
      have hcmem : c0 ∈ items := mem_sortByDelta.mp hcsort
      have hpairfil := hpair.filter (fun item => F32.blt ((item.duration.sub d).abs) tol)
      rw [hfilter] at hpairfil
      have hhead := (List.pairwise_cons.mp hpairfil).1
      constructor
      · intro _
        refine ⟨hpc, ?_⟩
        intro c2 hc2 hpc2
        have hc2fil : c2 ∈ (sortByDelta d items).filter
            (fun item => F32.blt ((item.duration.sub d).abs) tol) :=
          List.mem_filter.mpr ⟨mem_sortByDelta.mpr hc2, hpc2⟩
        rw [hfilter] at hc2fil
        rcases List.mem_cons.mp hc2fil with rfl | hc2rest
        · exact F32.blt_irrefl _
        · have hle : qAbsDelta d c0 ≤ qAbsDelta d c2 := hhead c2 hc2rest
          rw [habs c2 hc2, habs c0 hcmem]
          simp only [F32.blt, decide_eq_false_iff_not, not_lt]
          exact hle
      · intro hF
        rw [hT] at hF
        exact absurd hF (by simp)
    · rw [toleranceFilter, if_neg hT] at hfilter
      have hcmem : c0 ∈ items := by
        rw [← mem_sortByDelta (d := d), hfilter]
        exact List.mem_cons_self c0 rest
      rw [hfilter] at hpair
      have hhead := (List.pairwise_cons.mp hpair).1
      constructor
      · intro hTT
        exact absurd hTT hT
      · intro _ c2 hc2
        have hc2sort : c2 ∈ sortByDelta d items := mem_sortByDelta.mpr hc2
        rw [hfilter] at hc2sort
        rcases List.mem_cons.mp hc2sort with rfl | hc2rest
        · exact F32.blt_irrefl _
        · have hle : qAbsDelta d c0 ≤ qAbsDelta d c2 := hhead c2 hc2rest
          rw [habs c2 hc2, habs c0 hcmem]
          simp only [F32.blt, decide_eq_false_iff_not, not_lt]
          exact hle
  · -- some NaN delta: since the sort did not panic, the list is a singleton
    have hp2 : ¬ 2 ≤ items.length := by
      intro h2
      apply hN
      intro x hx
      have := hpanic
      simp only [sortComparatorPanics, Bool.and_eq_true, decide_eq_true_eq,
        List.any_eq_true] at this
      by_contra hxn
      exact this ⟨h2, x, hx, by simpa using hxn⟩
    have hone : items.length = 1 := by omega
    obtain ⟨x, rfl⟩ := List.length_eq_one.mp hone
    have hxnan : ((x.duration.sub d).abs) = F32.nan := by
      apply isNaN_eq_nan
      by_contra hxx
      exact hN (fun y hy => by
        rcases List.mem_singleton.mp hy with rfl
        simpa using hxx)
    have hsortx : sortByDelta d [x] = [x] := by simp [sortByDelta, insertByDelta]
    rw [hsortx] at hfilter
    by_cases hT : F32.blt (F32.fin 0) tol = true
    · rw [toleranceFilter, if_pos hT] at hfilter
      rw [List.filter_cons_of_neg, List.filter_nil] at hfilter
      · exact absurd hfilter (by simp)
      · simp [hxnan, blt_nan_left]
    · rw [toleranceFilter, if_neg hT] at hfilter
      injection hfilter with h1 h2
      subst h1
      constructor
      · intro hTT
        exact absurd hTT hT
      · intro _ c2 hc2
        rcases List.mem_singleton.mp hc2 with rfl
        exact F32.blt_irrefl _


/-- Claim C1 (code bug evaluated at the spec's Scenario D input): with
candidate durations `[190, 250]`, target duration `200` and tolerance `5`,
the tolerance filter removes every candidate and the selection block then
evaluates `canidates[0]` on the empty vector — an out-of-bounds panic, not
the claimed terminal `NotFound`. -/
theorem select_panics_when_filter_removes_all :
    selectCandidate [item190, item250] (some (F32.fin 200)) (F32.fin 5) =
      SelOutcome.panicIndex := by
  norm_num [selectCandidate, sortComparatorPanics, sortByDelta, insertByDelta, toleranceFilter,
    qAbsDelta, F32.sub, F32.abs, F32.blt, F32.isNaN, item190, item250]

/-- Claim C2 (code bug evaluated at the spec's Scenario E input): when the
selected candidate's `syncedLyrics` is absent, the search-fallback branch
reaches `canidates[0].syncedLyrics.as_ref().unwrap()` and panics instead of
terminating with "not found". -/
theorem search_branch_panics_without_synced :
    searchBranch [item200NoSync] (some (F32.fin 200)) (F32.fin 5) =
      SearchOutcome.panicUnwrapSynced := by
  norm_num [searchBranch, selectCandidate, sortComparatorPanics, sortByDelta, insertByDelta,
    toleranceFilter, qAbsDelta, F32.sub, F32.abs, F32.blt, F32.isNaN, item200NoSync, item190]

/-- Claim C4 (code bug): with two candidates and a NaN delta against the
target (here a NaN target duration), the sort comparator's
`partial_cmp(..).unwrap()` receives `None` and panics; NaN is not treated
as maximally distant. -/
theorem sort_panics_on_nan_delta :
    selectCandidate [item190, item250] (some F32.nan) (F32.fin 5) =
      SelOutcome.panicSort := by
  norm_num [selectCandidate, sortComparatorPanics, F32.sub, F32.abs, F32.isNaN, item190, item250]

/-- Witness for claim C5's theorem at a concrete input: durations
`[200, 195]`, target `200`, tolerance `10`; the selected candidate is the
200s one and the 195s candidate is not strictly closer. -/
theorem select_minimal_witness :
    F32.blt ((item195.duration.sub (F32.fin 200)).abs)
      ((item200.duration.sub (F32.fin 200)).abs) = false := by
  have hsel : selectCandidate [item200, item195] (some (F32.fin 200)) (F32.fin 10) =
      SelOutcome.selected item200 := by
    norm_num [selectCandidate, sortComparatorPanics, sortByDelta, insertByDelta, toleranceFilter,
      qAbsDelta, F32.sub, F32.abs, F32.blt, F32.isNaN, item200, item195, item190]
  exact ((select_minimal [item200, item195] (F32.fin 200) (F32.fin 10) item200 hsel).1
      (by norm_num [F32.blt])).2 item195 (by simp)
      (by norm_num [item195, item190, F32.sub, F32.abs, F32.blt])

/-- Claim C6: the tolerance filter uses strict `<`: when `tolerance > 0.0`
a candidate whose absolute delta equals the tolerance is removed, and when
the tolerance is not positive the filter leaves the list untouched. -/
theorem tolerance_filter_strict_boundary (tol d : F32) (items : List LrclibItem) :
    (F32.blt (F32.fin 0) tol = true →
      ∀ c ∈ items, (c.duration.sub d).abs = tol → c ∉ toleranceFilter tol d items) ∧
    (F32.blt (F32.fin 0) tol = false → toleranceFilter tol d items = items) := by
  constructor
  · intro hT c _ heq hmem
    rw [toleranceFilter, if_pos hT] at hmem
    have h2 := (List.mem_filter.mp hmem).2
    rw [heq] at h2
    rw [F32.blt_irrefl] at h2
    exact absurd h2 (by simp)
  · intro hT
    rw [toleranceFilter, if_neg]
    simp [hT]

/-- Claim C7: without a target duration the selection block neither sorts
nor filters: the empty list reports no results and a non-empty list selects
its first candidate, whatever the tolerance. -/
theorem select_duration_absent (items : List LrclibItem) (tol : F32) :
    selectCandidate items none tol =
      match items with
      | [] => SelOutcome.noResults
      | c :: _ => SelOutcome.selected c := by
  cases items with
  | nil => simp [selectCandidate]
  | cons c rest => simp [selectCandidate]

/-- Claim C8: the built query's duration is cleared to absent exactly when
the ignore list contains "duration", its album name is cleared exactly when
the ignore list contains "album_name" or "album", and the remaining fields
equal the metadata values. -/
theorem buildQuery_ignore_fields (md : TrackMetadata) (ignore : List String) :
    (buildQuery md ignore).track_name = md.track_name ∧
    (buildQuery md ignore).artist_name = md.artist_name ∧
    (buildQuery md ignore).duration =
      (if ignore.contains "duration" then none else md.duration) ∧
    (buildQuery md ignore).album_name =
      (if ignore.contains "album_name" || ignore.contains "album" then none
        else md.album_name) := by
  simp only [buildQuery, LrclibQuery.remove_duration, LrclibQuery.remove_album_name]
  split_ifs <;> simp_all

/-- Claim C9: for both remote operations, status 404 maps to `Ok(None)`
(logical not-found, no error), any other non-success status maps to an
error carrying the status, and a success status whose body fails to parse
maps to a parse-failure error. -/
theorem response_status_mapping (code : Nat) (gbody : Option LrclibItem)
    (sbody : Option (List LrclibItem)) :
    (code = 404 → handleGetResponse code gbody = Except.ok none ∧
      handleSearchResponse code sbody = Except.ok none) ∧
    (isSuccess code = false → code ≠ 404 →
      handleGetResponse code gbody = Except.error (LrcErr.status code) ∧
      handleSearchResponse code sbody = Except.error (LrcErr.status code)) ∧
    (isSuccess code = true → gbody = none →
      handleGetResponse code gbody = Except.error LrcErr.parseFailure) ∧
    (isSuccess code = true → sbody = none →
      handleSearchResponse code sbody = Except.error LrcErr.parseFailure) := by
  refine ⟨?_, ?_, ?_, ?_⟩
  · intro h404
    subst h404
    constructor <;> simp [handleGetResponse, handleSearchResponse, isSuccess]
  · intro hns hne
    constructor <;> simp [handleGetResponse, handleSearchResponse, hns, hne]
  · intro hs hg
    subst hg
    simp [handleGetResponse, hs]
  · intro hs hsb
    subst hsb
    simp [handleSearchResponse, hs]

/-- Claim C10: `LrcLibClient::new` ignores its url argument and sets the
base url to the fixed literal; a caller-supplied url takes effect only
through `set_url`. -/
theorem client_new_ignores_url (u v : String) :
    (LrcLibClient.new u).url = "https://lrclib.net" ∧
    ((LrcLibClient.new u).set_url v).url = v := by
  exact ⟨rfl, rfl⟩

/-- Counterexample to claim C3 as stated: for the query with empty
`artist_name` (and all other fields present), the exact-get parameter list
contains no `artist_name` parameter at all. -/
theorem get_query_artist_counterexample :
    ¬ ("artist_name", "") ∈ LrclibQuery.to_get_query
      { track_name := "Song", artist_name := "", album_name := some "Rec",
        duration := some (F32.fin 200) } := by
  decide

/-- Claim C3 as amended: the exact-get request includes the `artist_name`
parameter exactly when `artist_name` is non-empty — the same conditional
inclusion as the search request, since `to_get_query` extends
`to_search_query` with only the duration parameter. -/
theorem get_query_artist_conditional (q : LrclibQuery) :
    ((∃ v, ("artist_name", v) ∈ q.to_get_query) ↔ q.artist_name.length > 0) ∧
    ((∃ v, ("artist_name", v) ∈ q.to_search_query) ↔ q.artist_name.length > 0) := by
  have hs : (∃ v, ("artist_name", v) ∈ q.to_search_query) ↔ q.artist_name.length > 0 := by
    rw [to_search_query_eq]
    constructor
    · rintro ⟨v, hv⟩
      simp only [List.mem_append, List.mem_singleton] at hv
      rcases hv with (hv | hv) | hv
      · simp [Prod.ext_iff] at hv
      · split_ifs at hv with hlen
        · exact hlen
        · simp at hv
      · rcases hA : q.album_name with _ | al <;> rw [hA] at hv <;>
          simp [Prod.ext_iff] at hv
    · intro hlen
      exact ⟨q.artist_name, by simp [if_pos hlen]⟩
  refine ⟨?_, hs⟩
  simp only [LrclibQuery.to_get_query]
  rcases hd : q.duration with _ | dv
  · simpa using hs
  · simp only [List.mem_append]
    constructor
    · rintro ⟨v, hv | hv⟩
      · exact hs.mp ⟨v, hv⟩
      · simp [Prod.ext_iff] at hv
    · intro hlen
      obtain ⟨v, hv⟩ := hs.mpr hlen
      exact ⟨v, Or.inl hv⟩


end LrcSync
